import Mathlib

/-
Shallow embedding of the `umrsm` state-machine engine (`src/sm.rs`, `src/sm_ext.rs`).

Rust `TypeId` tokens become `Nat`; `Box<dyn Any>` becomes an `AnyBox`: a runtime
type tag paired with a value drawn from a small universe `Val`.  A registered
state kind (a Rust type `T : State`) becomes a `StateKind` record carrying its
identity token, the token of its declared `Income` type, its default instance
value and its resolved `init`/`handle`/`name` methods.  Real-world effects are
made explicit: `Instant::now()` becomes a `now : Nat` argument, and the engine
operations additionally emit a list of `Event`s recording every place the source
constructs a state instance, extracts an outcome payload, or invokes an entry
hook, so that "never constructed / never invoked" properties are statable.
-/

namespace Umrsm

/-- Rust `std::any::TypeId`, abstracted as a natural-number token. -/
abbrev RTypeId := Nat

/-- Rust `TypeId::of::<()>`, the completion sentinel identity (`sm.rs` line 272, 495). -/
def unitTypeId : RTypeId := 0

/-- Small universe of runtime values, standing for the payloads and instance
fields of concrete Rust types. -/
inductive Val where
  | unit
  | nat (n : Nat)
  | str (s : String)
  | pair (a b : Val)
deriving DecidableEq

/-- Rust `Box<dyn Any>`: a value together with its runtime type token. -/
structure AnyBox where
  tyId : RTypeId
  val : Val
deriving DecidableEq

/-- Rust `StateEntryError` (`sm.rs` lines 350-354): expected income type token and
the received payload, returned whole. -/
structure StateEntryError where
  expected : RTypeId
  received : AnyBox
deriving DecidableEq

/-- A `BoxedOutcome` (`sm.rs` lines 447-465): destination identity
(`state_type`), the payload `data()` would yield, and the diagnostic `name`. -/
structure BoxedOutcome where
  state_type : RTypeId
  data : AnyBox
  name : String
deriving DecidableEq

/-- A Rust type `T` implementing `State` (`sm.rs` lines 377-397), with its
resolved methods.  `id` is `TypeId::of::<T>`, `incomeTy` is
`TypeId::of::<T::Income>`, `dflt` is `T::default()`.  `handle` returns the
mutated instance, the mutated shared data and the transition already converted
through `IntoOutcome` (the blanket impl boxes it unchanged, lines 544-551). -/
structure StateKind (D : Type) where
  id : RTypeId
  incomeTy : RTypeId
  type_name : String
  dflt : Val
  init : Val → Val → Val
  handle : Val → D → Val × D × BoxedOutcome
  name : Val → String

/-- An erased `Box<dyn StateInternal<D>>`: every instance in the machine is a
`T::default()`-descendant of some registered kind (`sm.rs` lines 399-417). -/
structure StateInstance (D : Type) where
  kind : StateKind D
  st : Val

/-- Rust `StateInternal::enter` (`sm.rs` lines 405-408): downcast the payload
against the declared income type; on success run `init`, on failure return the
payload unchanged inside a `StateEntryError`. -/
def StateInstance.enter {D : Type} (s : StateInstance D) (meta : AnyBox) :
    Except StateEntryError (StateInstance D) :=
  if meta.tyId = s.kind.incomeTy then
    .ok { s with st := s.kind.init s.st meta.val }
  else
    .error { expected := s.kind.incomeTy, received := meta }

/-- Rust `StateInternal::handle` (`sm.rs` lines 410-412). -/
def StateInstance.handle {D : Type} (s : StateInstance D) (d : D) :
    StateInstance D × D × BoxedOutcome :=
  let p := s.kind.handle s.st d
  ({ s with st := p.1 }, p.2.1, p.2.2)

/-- Rust `StateInternal::name` (`sm.rs` lines 414-416). -/
def StateInstance.name {D : Type} (s : StateInstance D) : String :=
  s.kind.name s.st

/-- Rust `StateHolderStruct::<T>::new` (`sm.rs` lines 344-346): a fresh default
instance of the kind. -/
def StateHolder.new {D : Type} (k : StateKind D) : StateInstance D :=
  ⟨k, k.dflt⟩

/-- Rust `StateMachine<Data>` (`sm.rs` lines 15-17): the registry, a map from state
identity to the holder that can construct it.  A `HashMap` is modelled by its
lookup function. -/
structure StateMachine (D : Type) where
  states : RTypeId → Option (StateKind D)

/-- Rust `StateMachine::default` (`sm.rs` lines 29-35). -/
def StateMachine.empty (D : Type) : StateMachine D :=
  ⟨fun _ => none⟩

/-- Rust `StateMachine::add_state` (`sm.rs` lines 40-44):
`entry(TypeId::of::<T>()).or_insert(holder)` — keep the present holder if the
key is occupied, otherwise insert the new one. -/
def StateMachine.add_state {D : Type} (m : StateMachine D) (T : StateKind D) :
    StateMachine D :=
  ⟨fun i => if i = T.id then some ((m.states T.id).getD T) else m.states i⟩

/-- Rust `StateMachine::make_state` (`sm.rs` lines 61-63). -/
def StateMachine.make_state {D : Type} (m : StateMachine D) (state : RTypeId) :
    Option (StateInstance D) :=
  (m.states state).map StateHolder.new

/-- Rust `StateMachineRunner` (`sm.rs` lines 68-73). -/
structure StateMachineRunner (D : Type) where
  machine : StateMachine D
  data : D
  state : StateInstance D
  state_id : RTypeId

/-- Rust `StepOutcome` (`sm.rs` lines 86-113). -/
inductive StepOutcome (D : Type) where
  | Continue (machine : StateMachineRunner D)
  | Transition (machine : StateMachineRunner D) (start transition «end» : String)
  | Complete (data : D) (start transition : String)
  | StateNotFound (start transition : String) («end» : RTypeId)
  | IncorrectTransition (start transition «end» : String)
      (expected_type : RTypeId) (received_data : AnyBox)

/-- Engine effects, recorded so that claims of the form "the engine never
constructs an instance / extracts a payload / calls an entry hook here" are
directly statable: an event is emitted at exactly the source locations where
`StateHolder::new`, `Outcome::data()` and `StateInternal::enter` are called
during a step. -/
inductive Event where
  | stateConstructed (dest : RTypeId)
  | dataExtracted
  | enterCalled (dest : RTypeId) (payload : AnyBox)
deriving DecidableEq

/-- Rust `StateMachineRunner::new` (`sm.rs` lines 244-260).  The caller passes the
start income as a value of `Start::Income`, so the boxed payload carries the
token `Start.incomeTy`.  The `.expect(...)` abort on an entry failure is made
visible as the `.error` branch of an `Except`. -/
def StateMachineRunner.new {D : Type} (machine : StateMachine D)
    (Start : StateKind D) (data : D) (start : Val) :
    Except String (Option (StateMachineRunner D)) :=
  let state_id := Start.id
  match machine.make_state state_id with
  | none => .ok none
  | some state =>
    match state.enter ⟨Start.incomeTy, start⟩ with
    | .ok entered => .ok (some ⟨machine, data, entered, state_id⟩)
    | .error _ =>
        .error "Start::Income will always match Start transition expected data"

/-- Rust `StateMachine::runner` (`sm.rs` lines 53-59). -/
def StateMachine.runner {D : Type} (m : StateMachine D) (Start : StateKind D)
    (initial_data : D) (start_transition_data : Val) :
    Except String (Option (StateMachineRunner D)) :=
  StateMachineRunner.new m Start initial_data start_transition_data

/-- Rust `StateMachineRunner::step` (`sm.rs` lines 264-303), instrumented with the
engine `Event`s it performs.  The handle call's three results (mutated
instance, mutated data, outcome) are threaded exactly as the `&mut` writes of
the source; the early `Continue`/`Complete`/`StateNotFound` returns perform no
engine event. -/
def StateMachineRunner.step {D : Type} (r : StateMachineRunner D) :
    StepOutcome D × List Event :=
  let hr := r.state.handle r.data
  let r1 : StateMachineRunner D := { r with state := hr.1, data := hr.2.1 }
  let outcome := hr.2.2
  if outcome.state_type = r1.state_id then
    (.Continue r1, [])
  else
    let start := r1.state.name
    let transition := outcome.name
    let r2 : StateMachineRunner D := { r1 with state_id := outcome.state_type }
    if r2.state_id = unitTypeId then
      (.Complete r2.data start transition, [])
    else
      match r2.machine.make_state r2.state_id with
      | none => (.StateNotFound start transition r2.state_id, [])
      | some state =>
        let r3 : StateMachineRunner D := { r2 with state := state }
        let endName := r3.state.name
        match r3.state.enter outcome.data with
        | .ok entered =>
            (.Transition { r3 with state := entered } start transition endName,
             [.stateConstructed r2.state_id, .dataExtracted,
              .enterCalled r2.state_id outcome.data])
        | .error e =>
            (.IncorrectTransition start transition endName e.expected e.received,
             [.stateConstructed r2.state_id, .dataExtracted,
              .enterCalled r2.state_id outcome.data])

/-- Rust `impl From<StepOutcome> for Result<StateMachineRunner, Option<D>>`
(`sm.rs` lines 229-239). -/
def StepOutcome.toResult {D : Type} :
    StepOutcome D → Except (Option D) (StateMachineRunner D)
  | .Continue machine => .ok machine
  | .Transition machine _ _ _ => .ok machine
  | .Complete data _ _ => .error (some data)
  | .StateNotFound _ _ _ => .error none
  | .IncorrectTransition _ _ _ _ _ => .error none

/-- Rust `StepOutcome::is_notable` (`sm.rs` lines 117-122). -/
def StepOutcome.is_notable {D : Type} : StepOutcome D → Bool
  | .Continue _ => false
  | _ => true

/-- The string " --[", built characterwise. -/
def arrowOpen : String := String.mk [Char.ofNat 32, Char.ofNat 45, Char.ofNat 45, Char.ofNat 91]

/-- The string "]--> ", built characterwise. -/
def arrowClose : String := String.mk [Char.ofNat 93, Char.ofNat 45, Char.ofNat 45, Char.ofNat 62, Char.ofNat 32]

/-- Rust `impl Display for StepOutcome` (`sm.rs` lines 189-227); `Continue` prints
nothing, the others print the transition arrow and, for the error outcomes, the
diagnostic tail. -/
def StepOutcome.display {D : Type} : StepOutcome D → String
  | .Continue _ => ""
  | .Transition _ start transition e =>
      start ++ arrowOpen ++ transition ++ arrowClose ++ e
  | .Complete _ start transition =>
      start ++ arrowOpen ++ transition ++ arrowClose ++ "END"
  | .StateNotFound start transition e =>
      start ++ arrowOpen ++ transition ++ arrowClose ++ toString e ++ "? ABORT!"
        ++ "Type " ++ toString e ++ " does not exist in the state machine"
  | .IncorrectTransition start transition e expected_type received_data =>
      start ++ arrowOpen ++ transition ++ "!" ++ arrowClose ++ e ++ e
        ++ " expected incoming data of type " ++ toString expected_type
        ++ " but received data of type " ++ toString received_data.tyId
        ++ " from transition " ++ transition

/-- Rust `StepOutcome::print_if_notable` (`sm.rs` lines 125-129), with `println!`
modelled as producing the printed lines. -/
def StepOutcome.print_if_notable {D : Type} (s : StepOutcome D) : List String :=
  if s.is_notable then [s.display] else []

/-- Rust `StateMachineRunner::run_to_completion` (`sm.rs` lines 306-313).  The Rust
`loop` is given explicit fuel; `none` means the fuel ran out before the
machine finished. -/
def StateMachineRunner.run_to_completion {D : Type} :
    Nat → StateMachineRunner D → Option (Option D)
  | 0, _ => none
  | fuel + 1, r =>
    match (r.step).1.toResult with
    | .ok machine => run_to_completion fuel machine
    | .error data => some data

/-- Rust `StateMachineRunner::run_to_completion_verbose` (`sm.rs` lines 316-325),
additionally returning the lines printed by `print_if_notable`. -/
def StateMachineRunner.run_to_completion_verbose {D : Type} :
    Nat → StateMachineRunner D → Option (Option D × List String)
  | 0, _ => none
  | fuel + 1, r =>
    let result := (r.step).1
    let printed := result.print_if_notable
    match result.toResult with
    | .ok machine =>
        (run_to_completion_verbose fuel machine).map fun p => (p.1, printed ++ p.2)
    | .error data => some (data, printed)

/-- Rust `impl Outcome for ()` (`sm.rs` lines 493-505). -/
def unitOutcome : BoxedOutcome :=
  ⟨unitTypeId, ⟨unitTypeId, .unit⟩, "(Complete)"⟩

/-- Rust `OutcomeData::<T>::new` (`sm.rs` lines 436-438, 507-522): payload of
exactly `T::Income`, default diagnostic name `type_name::<T>()`. -/
def OutcomeData.new {D : Type} (T : StateKind D) (data : Val) : BoxedOutcome :=
  ⟨T.id, ⟨T.incomeTy, data⟩, T.type_name⟩

/-- Rust `OutcomeData::<T>::with_name` (`sm.rs` lines 440-442). -/
def OutcomeData.with_name {D : Type} (T : StateKind D) (data : Val)
    (name : String) : BoxedOutcome :=
  ⟨T.id, ⟨T.incomeTy, data⟩, name⟩

/-- Rust `impl Outcome for ContinueOutcome<T>` (`sm.rs` lines 524-542): destination
`T`, payload `Box::new(())` (arbitrary, never read on a self-transition). -/
def ContinueOutcome.intoOutcome {D : Type} (T : StateKind D) : BoxedOutcome :=
  ⟨T.id, ⟨unitTypeId, .unit⟩, "ContinueOutcome::<" ++ T.type_name ++ ">"⟩

/- Timed-state decorator (`src/sm_ext.rs`).

`Instant` is modelled as a `Nat` clock reading passed explicitly (`now`), and
`Duration` as a `Nat`; `Duration::default()` is the zero duration.  A type
implementing the `TimedState` trait (`sm_ext.rs` lines 12-26) becomes a record
of its resolved methods over the instance-value universe `Val`. -/

/-- A Rust type implementing `TimedState<Data>` (`sm_ext.rs` lines 12-26).
`init` mutates the inner instance and optionally overrides the timeout. -/
structure TimedState (D : Type) where
  dflt : Val
  init : Val → Val → Val × Option Nat
  handle_if_not_timeout : Val → D → Val × D × BoxedOutcome
  handle_once_timeout : Val → D → Val × D × BoxedOutcome
  name : Val → String

/-- Rust `TimedStateStruct` (`sm_ext.rs` lines 67-72): configured timeout, instant
of entry, and the wrapped inner instance. -/
structure TimedStateStruct (D : Type) where
  timeout : Nat
  start_time : Nat
  state : Val
deriving DecidableEq

/-- Rust `impl Default for TimedStateStruct` (`sm_ext.rs` lines 74-83):
`timeout = Duration::default()` (zero), `start_time = Instant::now()`. -/
def TimedStateStruct.dfltAt {D : Type} (S : TimedState D) (now : Nat) :
    TimedStateStruct D :=
  { timeout := 0, start_time := now, state := S.dflt }

/-- Rust `TimedStateStruct::init` (`sm_ext.rs` lines 89-94): record the entry
instant, run the inner `init`, and override the timeout only when it returns
`Some`. -/
def TimedStateStruct.init {D : Type} (S : TimedState D)
    (ts : TimedStateStruct D) (now : Nat) (previous : Val) :
    TimedStateStruct D :=
  let ts1 : TimedStateStruct D := { ts with start_time := now }
  let p := S.init ts1.state previous
  match p.2 with
  | some timeout => { ts1 with state := p.1, timeout := timeout }
  | none => { ts1 with state := p.1 }

/-- Rust `TimedStateStruct::handle` (`sm_ext.rs` lines 96-102):
`if (Instant::now() - self.start_time) > self.timeout` dispatch to
`handle_once_timeout`, else to `handle_if_not_timeout`. -/
def TimedStateStruct.handle {D : Type} (S : TimedState D)
    (ts : TimedStateStruct D) (now : Nat) (data : D) :
    TimedStateStruct D × D × BoxedOutcome :=
  if ts.timeout < now - ts.start_time then
    let p := S.handle_once_timeout ts.state data
    ({ ts with state := p.1 }, p.2.1, p.2.2)
  else
    let p := S.handle_if_not_timeout ts.state data
    ({ ts with state := p.1 }, p.2.1, p.2.2)

/-- Iterated stepping of a timed state within one entry: fold `handle` over a
list of clock readings, threading the instance and the shared data. -/
def TimedStateStruct.handleSeq {D : Type} (S : TimedState D) :
    TimedStateStruct D → D → List Nat → TimedStateStruct D × D
  | ts, d, [] => (ts, d)
  | ts, d, t :: rest =>
      let p := TimedStateStruct.handle S ts t d
      TimedStateStruct.handleSeq S p.1 p.2.1 rest

/- Concrete state kinds and machines used to instantiate the theorems. -/

/-- A state that self-transitions, mutating the shared counter and carrying a
deliberately ill-typed payload (type token `99` matches no income type). -/
def exKindSelf : StateKind Nat :=
  { id := 1
    incomeTy := 10
    type_name := "ExSelf"
    dflt := .unit
    init := fun s _ => s
    handle := fun s d => (s, d + 1, ⟨1, ⟨99, .str "garbage"⟩, "loop"⟩)
    name := fun _ => "ExSelf" }

/-- A destination state with income type token `12`; `init` stores the income
value it receives. -/
def exKindDest : StateKind Nat :=
  { id := 4
    incomeTy := 12
    type_name := "ExDest"
    dflt := .unit
    init := fun _ p => p
    handle := fun s d => (s, d, unitOutcome)
    name := fun _ => "ExDest" }

/-- A state that transitions to `exKindDest` with a correctly-typed payload. -/
def exKindGood : StateKind Nat :=
  { id := 3
    incomeTy := 10
    type_name := "ExGood"
    dflt := .unit
    init := fun s _ => s
    handle := fun s d => (s, d + 2, OutcomeData.with_name exKindDest (.nat 5) "toDest")
    name := fun _ => "ExGood" }

/-- A state that transitions to `exKindDest` with an ill-typed payload
(type token `99` instead of the declared `12`). -/
def exKindBad : StateKind Nat :=
  { id := 5
    incomeTy := 10
    type_name := "ExBad"
    dflt := .unit
    init := fun s _ => s
    handle := fun s d => (s, d, ⟨4, ⟨99, .nat 0⟩, "badToDest"⟩)
    name := fun _ => "ExBad" }

/-- A state that transitions to an identity (`77`) never registered. -/
def exKindToMissing : StateKind Nat :=
  { id := 2
    incomeTy := 10
    type_name := "ExToMissing"
    dflt := .unit
    init := fun s _ => s
    handle := fun s d => (s, d, ⟨77, ⟨10, .unit⟩, "toMissing"⟩)
    name := fun _ => "ExToMissing" }

/-- A state that transitions to the completion sentinel, mutating the counter. -/
def exKindComplete : StateKind Nat :=
  { id := 6
    incomeTy := 10
    type_name := "ExComplete"
    dflt := .unit
    init := fun s _ => s
    handle := fun s d => (s, d + 7, unitOutcome)
    name := fun _ => "ExComplete" }

/-- A registry holding all the example kinds. -/
def exMachine : StateMachine Nat :=
  ((((((StateMachine.empty Nat).add_state exKindSelf).add_state
      exKindToMissing).add_state exKindGood).add_state
      exKindDest).add_state exKindBad).add_state exKindComplete

/-- A runner sitting in `exKindSelf`. -/
def exRunnerSelf : StateMachineRunner Nat :=
  ⟨exMachine, 0, ⟨exKindSelf, .unit⟩, 1⟩

/-- A runner sitting in `exKindGood`. -/
def exRunnerGood : StateMachineRunner Nat :=
  ⟨exMachine, 0, ⟨exKindGood, .unit⟩, 3⟩

/-- A runner sitting in `exKindBad`. -/
def exRunnerBad : StateMachineRunner Nat :=
  ⟨exMachine, 0, ⟨exKindBad, .unit⟩, 5⟩

/-- A runner sitting in `exKindToMissing`. -/
def exRunnerToMissing : StateMachineRunner Nat :=
  ⟨exMachine, 0, ⟨exKindToMissing, .unit⟩, 2⟩

/-- A runner sitting in `exKindComplete`. -/
def exRunnerComplete : StateMachineRunner Nat :=
  ⟨exMachine, 0, ⟨exKindComplete, .unit⟩, 6⟩

/-- A timed state whose two handlers are distinguishable: the poll handler
adds 1 to the shared counter, the timeout handler adds 2.  Its `init` asks for
a timeout of 5. -/
def exTimed : TimedState Nat :=
  { dflt := .unit
    init := fun s _ => (s, some 5)
    handle_if_not_timeout := fun s d => (s, d + 1, unitOutcome)
    handle_once_timeout := fun s d => (s, d + 2, unitOutcome)
    name := fun _ => "ExTimed" }

/-- A timed state whose `init` returns no timeout override. -/
def exTimedNone : TimedState Nat :=
  { dflt := .unit
    init := fun s _ => (s, none)
    handle_if_not_timeout := fun s d => (s, d + 1, unitOutcome)
    handle_once_timeout := fun s d => (s, d + 2, unitOutcome)
    name := fun _ => "ExTimedNone" }

/-- A timed-state wrapper instance entered at instant 0 with timeout 5. -/
def exTs : TimedStateStruct Nat :=
  { timeout := 5, start_time := 0, state := .unit }

/- Helper lemmas shared by the claim theorems. -/

/-- Helper: the verbose runner loop computes the same result as the plain one;
printing is observational. -/
theorem verbose_fst {D : Type} : ∀ (fuel : Nat) (r : StateMachineRunner D),
    Option.map Prod.fst (StateMachineRunner.run_to_completion_verbose fuel r) =
      StateMachineRunner.run_to_completion fuel r
  | 0, _ => rfl
  | fuel + 1, r => by
    rw [StateMachineRunner.run_to_completion_verbose, StateMachineRunner.run_to_completion]
    cases h : ((r.step).1).toResult with
    | ok machine =>
        simp only [h, Option.map_map]
        rw [← verbose_fst fuel machine]
        rfl
    | error d => simp [h]

/-- Helper: two registrations whose identities determine their kinds commute. -/
theorem add_state_comm {D : Type} (T U : StateKind D)
    (hcoh : T.id = U.id → T = U) (m : StateMachine D) :
    (m.add_state T).add_state U = (m.add_state U).add_state T := by
  by_cases hid : T.id = U.id
  · rw [hcoh hid]
  · cases m with
    | mk f =>
      unfold StateMachine.add_state
      simp only [StateMachine.mk.injEq]
      funext i
      by_cases hT : i = T.id <;> by_cases hU : i = U.id <;>
        simp_all [StateMachine.add_state]

/-- Helper: one timed-state step never changes the recorded entry instant or
the configured timeout. -/
theorem timed_handle_preserves {D : Type} (S : TimedState D)
    (ts : TimedStateStruct D) (now : Nat) (d : D) :
    (TimedStateStruct.handle S ts now d).1.start_time = ts.start_time ∧
    (TimedStateStruct.handle S ts now d).1.timeout = ts.timeout := by
  unfold TimedStateStruct.handle
  split <;> simp

/-- Helper: a sequence of timed-state steps never changes the recorded entry
instant or the configured timeout. -/
theorem timed_handleSeq_preserves {D : Type} (S : TimedState D) :
    ∀ (ds : List Nat) (ts : TimedStateStruct D) (d : D),
    (TimedStateStruct.handleSeq S ts d ds).1.start_time = ts.start_time ∧
    (TimedStateStruct.handleSeq S ts d ds).1.timeout = ts.timeout
  | [], _, _ => ⟨rfl, rfl⟩
  | t :: rest, ts, d => by
    rw [TimedStateStruct.handleSeq]
    have h := timed_handle_preserves S ts t d
    have ih := timed_handleSeq_preserves S rest (TimedStateStruct.handle S ts t d).1
      (TimedStateStruct.handle S ts t d).2.1
    exact ⟨ih.1.trans h.1, ih.2.trans h.2⟩

/-- Helper: a successful runner construction builds the active instance freshly
from the registered kind's default value, then runs its entry hook on the
supplied income. -/
theorem new_fresh_aux {D : Type} (m : StateMachine D) (Start : StateKind D)
    (d : D) (v : Val) (r : StateMachineRunner D)
    (hnew : StateMachineRunner.new m Start d v = .ok (some r)) :
    ∃ k, m.states Start.id = some k ∧
      r.state = ⟨k, k.init k.dflt v⟩ ∧ r.state_id = Start.id ∧
      r.data = d ∧ r.machine = m := by
  unfold StateMachineRunner.new at hnew
  simp only [] at hnew
  split at hnew
  · simp at hnew
  · rename_i state hmk
    split at hnew
    · rename_i entered henter
      simp only [Except.ok.injEq, Option.some.injEq] at hnew
      subst hnew
      unfold StateMachine.make_state at hmk
      cases hks : m.states Start.id with
      | none => rw [hks] at hmk; simp at hmk
      | some k =>
        rw [hks] at hmk
        simp only [Option.map_some'] at hmk
        injection hmk with hmk
        refine ⟨k, rfl, ?_, rfl, rfl, rfl⟩
        rw [← hmk] at henter
        unfold StateInstance.enter StateHolder.new at henter
        split at henter
        · injection henter with he
          exact he.symm
        · cases henter
    · simp at hnew

/-- Helper: a `Transition` step outcome carries an active instance built
freshly from the destination kind's default value and the transition's
payload, independent of any earlier instance of that identity. -/
theorem step_transition_fresh_aux {D : Type} (r : StateMachineRunner D)
    (m2 : StateMachineRunner D) (start transition endName : String)
    (tr : List Event)
    (hstep : r.step = (.Transition m2 start transition endName, tr)) :
    ∃ k, r.machine.states ((r.state.handle r.data).2.2).state_type = some k ∧
      m2.state = ⟨k, k.init k.dflt ((r.state.handle r.data).2.2).data.val⟩ := by
  unfold StateMachineRunner.step at hstep
  simp only [] at hstep
  split at hstep
  · simp at hstep
  · split at hstep
    · simp at hstep
    · split at hstep
      · simp at hstep
      · rename_i state hmk
        split at hstep
        · rename_i entered henter
          simp only [Prod.mk.injEq, StepOutcome.Transition.injEq] at hstep
          obtain ⟨⟨hm2, -, -, -⟩, -⟩ := hstep
          unfold StateMachine.make_state at hmk
          cases hks : r.machine.states ((r.state.handle r.data).2.2).state_type with
          | none => rw [hks] at hmk; simp at hmk
          | some k =>
            rw [hks] at hmk
            simp only [Option.map_some'] at hmk
            refine ⟨k, rfl, ?_⟩
            rw [← hm2]
            injection hmk with hmk
            rw [← hmk] at henter
            unfold StateInstance.enter StateHolder.new at henter
            split at henter
            · injection henter with he
              exact he.symm
            · cases henter
        · simp at hstep

/- Claim theorems.  Each theorem names the claim it settles; each theorem with a
hypothesis has a companion witness theorem instantiating it at concrete input. -/

/-- Claim C1: when the handle call's outcome names the active identity, `step`
returns `Continue` carrying the very runner the handle call produced — same
machine reference, same active instance (as mutated by the state's own handle
call), same identity, context exactly as handle left it — and the engine
performs no event at all: the destination's entry hook is never invoked, the
payload is never extracted (so an ill-typed payload is harmless), and no
instance is constructed. -/
theorem step_self_transition_spec {D : Type} (r : StateMachineRunner D)
    (h : ((r.state.handle r.data).2.2).state_type = r.state_id) :
    r.step = (.Continue { r with state := (r.state.handle r.data).1,
                                 data := (r.state.handle r.data).2.1 }, []) := by
  simp [StateMachineRunner.step, h]

/-- Witness for C1: a concrete self-transition whose payload carries the
ill-typed tag `99`; the runner comes back with only its handle mutation. -/
theorem step_self_transition_applied :
    exRunnerSelf.step = (.Continue { exRunnerSelf with
      state := (exRunnerSelf.state.handle exRunnerSelf.data).1,
      data := (exRunnerSelf.state.handle exRunnerSelf.data).2.1 }, []) :=
  step_self_transition_spec exRunnerSelf rfl

/-- Claim C5: when the outcome's destination is the completion sentinel (and
differs from the active identity), `step` returns `Complete` whose data field
is the shared context exactly as the active state's own handle call left it,
and the engine performs no event — it never writes to the context itself. -/
theorem step_complete_spec {D : Type} (r : StateMachineRunner D)
    (h1 : ((r.state.handle r.data).2.2).state_type ≠ r.state_id)
    (h2 : ((r.state.handle r.data).2.2).state_type = unitTypeId) :
    r.step = (.Complete (r.state.handle r.data).2.1
               ((r.state.handle r.data).1.name)
               ((r.state.handle r.data).2.2).name, []) := by
  rw [h2] at h1
  simp [StateMachineRunner.step, h1, h2]

/-- Witness for C5: the concrete completing state incremented the context by 7
and that exact value is returned. -/
theorem step_complete_applied :
    exRunnerComplete.step = (.Complete 7 "ExComplete" "(Complete)", []) :=
  step_complete_spec exRunnerComplete (by decide) rfl

/-- Claim C4: when the outcome's destination differs from the active identity
and the sentinel and has no factory in the registry, `step` returns
`StateNotFound` carrying the start name, the transition's diagnostic name and
the unresolved identity token, and the engine performs no event — in
particular no instance of that identity is constructed. -/
theorem step_state_not_found_spec {D : Type} (r : StateMachineRunner D)
    (h1 : ((r.state.handle r.data).2.2).state_type ≠ r.state_id)
    (h2 : ((r.state.handle r.data).2.2).state_type ≠ unitTypeId)
    (h3 : r.machine.states ((r.state.handle r.data).2.2).state_type = none) :
    r.step = (.StateNotFound ((r.state.handle r.data).1.name)
               ((r.state.handle r.data).2.2).name
               ((r.state.handle r.data).2.2).state_type, []) := by
  simp [StateMachineRunner.step, StateMachine.make_state, h1, h2, h3]

/-- Witness for C4: transitioning to the never-registered identity 77. -/
theorem step_state_not_found_applied :
    exRunnerToMissing.step = (.StateNotFound "ExToMissing" "toMissing" 77, []) :=
  step_state_not_found_spec exRunnerToMissing (by decide) (by decide) rfl

/-- Claim C3: when the outcome's destination resolves in the registry (and
differs from the active identity and the sentinel), the runtime type check at
entry decides the result: a payload whose type token equals the destination's
declared income token yields `Transition` (entry succeeds on a fresh default
instance), and a differing token yields `IncorrectTransition` carrying the
destination's expected token and the received payload itself, unchanged. -/
theorem step_entry_check_spec {D : Type} (r : StateMachineRunner D)
    (k : StateKind D)
    (h1 : ((r.state.handle r.data).2.2).state_type ≠ r.state_id)
    (h2 : ((r.state.handle r.data).2.2).state_type ≠ unitTypeId)
    (h3 : r.machine.states ((r.state.handle r.data).2.2).state_type = some k) :
    (((r.state.handle r.data).2.2).data.tyId = k.incomeTy →
      r.step = (.Transition
        { machine := r.machine
          data := (r.state.handle r.data).2.1
          state := ⟨k, k.init k.dflt ((r.state.handle r.data).2.2).data.val⟩
          state_id := ((r.state.handle r.data).2.2).state_type }
        ((r.state.handle r.data).1.name)
        ((r.state.handle r.data).2.2).name
        (k.name k.dflt),
        [.stateConstructed ((r.state.handle r.data).2.2).state_type, .dataExtracted,
         .enterCalled ((r.state.handle r.data).2.2).state_type
           ((r.state.handle r.data).2.2).data])) ∧
    (((r.state.handle r.data).2.2).data.tyId ≠ k.incomeTy →
      r.step = (.IncorrectTransition
        ((r.state.handle r.data).1.name)
        ((r.state.handle r.data).2.2).name
        (k.name k.dflt)
        k.incomeTy
        ((r.state.handle r.data).2.2).data,
        [.stateConstructed ((r.state.handle r.data).2.2).state_type, .dataExtracted,
         .enterCalled ((r.state.handle r.data).2.2).state_type
           ((r.state.handle r.data).2.2).data])) := by
  constructor <;> intro hty <;>
    simp [StateMachineRunner.step, StateMachine.make_state, StateHolder.new,
          StateInstance.enter, StateInstance.name, h1, h2, h3, hty]

/-- Witness for C3: the matching payload (`tag 12, value 5`) enters `ExDest`
successfully; the mismatched payload (`tag 99`) comes back unchanged inside
`IncorrectTransition` together with the expected token 12. -/
theorem step_entry_check_applied :
    exRunnerGood.step = (.Transition ⟨exMachine, 2, ⟨exKindDest, .nat 5⟩, 4⟩
        "ExGood" "toDest" "ExDest",
        [.stateConstructed 4, .dataExtracted, .enterCalled 4 ⟨12, .nat 5⟩]) ∧
    exRunnerBad.step = (.IncorrectTransition "ExBad" "badToDest" "ExDest" 12 ⟨99, .nat 0⟩,
        [.stateConstructed 4, .dataExtracted, .enterCalled 4 ⟨99, .nat 0⟩]) :=
  ⟨(step_entry_check_spec exRunnerGood exKindDest (by decide) (by decide) rfl).1 rfl,
   (step_entry_check_spec exRunnerBad exKindDest (by decide) (by decide) rfl).2 (by decide)⟩

/-- Claim C6: `run_to_completion` repeatedly steps, keeping the returned
runner on `Continue`/`Transition`, returns the final context exactly when a
step yields `Complete` and nothing exactly when a step yields `StateNotFound`
or `IncorrectTransition`; the verbose variant computes the identical result
with identical control flow (its printed lines are purely observational). -/
theorem run_to_completion_spec {D : Type} (fuel : Nat) (r : StateMachineRunner D) :
    Option.map Prod.fst (StateMachineRunner.run_to_completion_verbose fuel r) =
      StateMachineRunner.run_to_completion fuel r ∧
    StateMachineRunner.run_to_completion (fuel + 1) r =
      (match (r.step).1 with
       | .Continue machine => StateMachineRunner.run_to_completion fuel machine
       | .Transition machine _ _ _ => StateMachineRunner.run_to_completion fuel machine
       | .Complete d _ _ => some (some d)
       | .StateNotFound _ _ _ => some none
       | .IncorrectTransition _ _ _ _ _ => some none) := by
  refine ⟨verbose_fst fuel r, ?_⟩
  rw [StateMachineRunner.run_to_completion]
  cases (r.step).1 <;> rfl

/-- Claim C7: every entry into a state identity — at runner construction and
at every `Transition` — builds the active instance freshly from the registered
kind's default value before running its entry hook on the transition payload;
the entered instance is a function of the kind and the payload alone, so
nothing is retained from any instance of an earlier entry of that identity. -/
theorem fresh_instance_on_entry_spec {D : Type} :
    (∀ (m : StateMachine D) (Start : StateKind D) (d : D) (v : Val)
        (r : StateMachineRunner D),
        StateMachineRunner.new m Start d v = .ok (some r) →
        ∃ k, m.states Start.id = some k ∧
          r.state = ⟨k, k.init k.dflt v⟩ ∧ r.state_id = Start.id ∧
          r.data = d ∧ r.machine = m) ∧
    (∀ (r m2 : StateMachineRunner D) (start transition endName : String)
        (tr : List Event),
        r.step = (.Transition m2 start transition endName, tr) →
        ∃ k, r.machine.states ((r.state.handle r.data).2.2).state_type = some k ∧
          m2.state = ⟨k, k.init k.dflt ((r.state.handle r.data).2.2).data.val⟩) :=
  ⟨new_fresh_aux, step_transition_fresh_aux⟩

/-- Witness for C7: a fresh construction of `ExDest` from income 9 and a fresh
entry of `ExDest` from the `ExGood` transition with payload 5. -/
theorem fresh_instance_on_entry_applied :
    (∃ k, exMachine.states exKindDest.id = some k ∧
       (⟨exMachine, 0, ⟨exKindDest, .nat 9⟩, 4⟩ : StateMachineRunner Nat).state =
         ⟨k, k.init k.dflt (.nat 9)⟩ ∧
       (⟨exMachine, 0, ⟨exKindDest, .nat 9⟩, 4⟩ : StateMachineRunner Nat).state_id =
         exKindDest.id ∧
       (⟨exMachine, 0, ⟨exKindDest, .nat 9⟩, 4⟩ : StateMachineRunner Nat).data = 0 ∧
       (⟨exMachine, 0, ⟨exKindDest, .nat 9⟩, 4⟩ : StateMachineRunner Nat).machine =
         exMachine) ∧
    (∃ k, exRunnerGood.machine.states
        ((exRunnerGood.state.handle exRunnerGood.data).2.2).state_type = some k ∧
      (⟨exMachine, 2, ⟨exKindDest, .nat 5⟩, 4⟩ : StateMachineRunner Nat).state =
        ⟨k, k.init k.dflt
          ((exRunnerGood.state.handle exRunnerGood.data).2.2).data.val⟩) :=
  ⟨fresh_instance_on_entry_spec.1 exMachine exKindDest 0 (.nat 9)
      ⟨exMachine, 0, ⟨exKindDest, .nat 9⟩, 4⟩ rfl,
   fresh_instance_on_entry_spec.2 exRunnerGood
      ⟨exMachine, 2, ⟨exKindDest, .nat 5⟩, 4⟩ "ExGood" "toDest" "ExDest"
      [.stateConstructed 4, .dataExtracted, .enterCalled 4 ⟨12, .nat 5⟩] rfl⟩

/-- Claim C8: `add_state` inserts a factory keyed by the kind's identity only
if absent (a registration whose key is present is a no-op, not an error),
registering twice equals registering once, and the registry resulting from a
sequence of registrations (whose identities determine their kinds, as Rust's
`TypeId` guarantees) is independent of the order of the sequence. -/
theorem add_state_spec {D : Type} :
    (∀ (m : StateMachine D) (T : StateKind D),
       (m.states T.id).isSome → m.add_state T = m) ∧
    (∀ (m : StateMachine D) (T : StateKind D),
       m.states T.id = none →
         ((m.add_state T).states T.id = some T ∧
          ∀ i, i ≠ T.id → (m.add_state T).states i = m.states i)) ∧
    (∀ (m : StateMachine D) (T : StateKind D),
       (m.add_state T).add_state T = m.add_state T) ∧
    (∀ (m : StateMachine D) (l1 l2 : List (StateKind D)),
       l1.Perm l2 →
       (∀ T ∈ l1, ∀ U ∈ l1, T.id = U.id → T = U) →
       l1.foldl StateMachine.add_state m = l2.foldl StateMachine.add_state m) := by
  refine ⟨?_, ?_, ?_, ?_⟩
  · intro m T hsome
    obtain ⟨k, hk⟩ := Option.isSome_iff_exists.mp hsome
    cases m with
    | mk f =>
      unfold StateMachine.add_state
      simp only [StateMachine.mk.injEq]
      funext i
      by_cases hT : i = T.id <;> simp_all
  · intro m T hnone
    refine ⟨by simp [StateMachine.add_state, hnone], ?_⟩
    intro i hi
    simp [StateMachine.add_state, hi]
  · intro m T
    cases m with
    | mk f =>
      unfold StateMachine.add_state
      simp only [StateMachine.mk.injEq]
      funext i
      by_cases hT : i = T.id <;> simp_all
  · intro m l1 l2 hperm hcoh
    exact hperm.foldl_eq' (fun T hT U hU z => add_state_comm T U (hcoh T hT U hU) z) m

/-- Witness for C8: re-registering the already-present `exKindSelf` leaves
`exMachine` untouched, and registering two distinct kinds in either order
yields the same registry. -/
theorem add_state_applied :
    exMachine.add_state exKindSelf = exMachine ∧
    [exKindSelf, exKindGood].foldl StateMachine.add_state (StateMachine.empty Nat) =
      [exKindGood, exKindSelf].foldl StateMachine.add_state (StateMachine.empty Nat) :=
  ⟨add_state_spec.1 exMachine exKindSelf rfl,
   add_state_spec.2.2.2 (StateMachine.empty Nat) [exKindSelf, exKindGood]
     [exKindGood, exKindSelf] (List.Perm.swap exKindGood exKindSelf [])
     (by
       intro T hT U hU h
       simp only [List.mem_cons, List.not_mem_nil, or_false] at hT hU
       rcases hT with rfl | rfl <;> rcases hU with rfl | rfl <;>
         first | rfl | exact absurd h (by decide))⟩

/-- Claim C9: runner construction returns "not found" exactly when the start
identity was never registered; under the coherence Rust's type system
enforces (whatever kind is registered under the start identity declares the
start state's income type), construction from any income value of that
declared type succeeds and the `.expect` at this single entry point can never
abort. -/
theorem runner_construction_spec {D : Type} (m : StateMachine D)
    (Start : StateKind D) (d : D) (v : Val)
    (hco : ∀ k, m.states Start.id = some k → k.incomeTy = Start.incomeTy) :
    (m.runner Start d v = .ok none ↔ m.states Start.id = none) ∧
    (∀ s, m.runner Start d v ≠ .error s) ∧
    (∀ k, m.states Start.id = some k →
       m.runner Start d v =
         .ok (some ⟨m, d, ⟨k, k.init k.dflt v⟩, Start.id⟩)) := by
  cases hm : m.states Start.id with
  | none =>
      simp [StateMachine.runner, StateMachineRunner.new, StateMachine.make_state, hm]
  | some k =>
      have hinc := hco k hm
      simp [StateMachine.runner, StateMachineRunner.new, StateMachine.make_state,
            StateHolder.new, StateInstance.enter, hm, hinc]

/-- Witness for C9: constructing a runner for the registered `ExDest` start
state never errors and succeeds for income value 9. -/
theorem runner_construction_applied :
    (exMachine.runner exKindDest 0 (.nat 9) = .ok none ↔
       exMachine.states exKindDest.id = none) ∧
    (∀ s, exMachine.runner exKindDest 0 (.nat 9) ≠ .error s) ∧
    (∀ k, exMachine.states exKindDest.id = some k →
       exMachine.runner exKindDest 0 (.nat 9) =
         .ok (some ⟨exMachine, 0, ⟨k, k.init k.dflt (.nat 9)⟩, exKindDest.id⟩)) :=
  runner_construction_spec exMachine exKindDest 0 (.nat 9) (by
    intro k hk
    rw [show exMachine.states exKindDest.id = some exKindDest from rfl] at hk
    injection hk with hk
    subst hk
    rfl)

/-- Counterexample to C2 as stated: at elapsed time exactly equal to the
configured timeout (`now = 5`, entry at 0, timeout 5 — "at the timeout"), the
claim demands `on_timeout`, but `handle` uses the strict comparison
`elapsed > timeout` and dispatches to `on_poll`: the result equals the
`handle_if_not_timeout` dispatch and differs from the `handle_once_timeout`
dispatch (the two handlers are distinguishable on the shared counter). -/
theorem timed_dispatch_boundary_cex :
    (5 : Nat) - exTs.start_time = exTs.timeout ∧
    TimedStateStruct.handle exTimed exTs 5 0 =
      ({ exTs with state := (exTimed.handle_if_not_timeout exTs.state 0).1 },
       (exTimed.handle_if_not_timeout exTs.state 0).2.1,
       (exTimed.handle_if_not_timeout exTs.state 0).2.2) ∧
    TimedStateStruct.handle exTimed exTs 5 0 ≠
      ({ exTs with state := (exTimed.handle_once_timeout exTs.state 0).1 },
       (exTimed.handle_once_timeout exTs.state 0).2.1,
       (exTimed.handle_once_timeout exTs.state 0).2.2) := by
  decide

/-- Claim C2 (amended): on every step of a timed state within one entry, if
the elapsed time since entry is at most the configured (possibly overridden)
timeout then exactly the `handle_if_not_timeout` handler runs, and if the
elapsed time is strictly past the timeout then exactly the
`handle_once_timeout` handler runs; moreover a step never changes the entry
instant or the timeout, and once a step is past the timeout, every later step
of that same entry (after any further step sequence, at any time at least as
late) also runs `handle_once_timeout`.  (The original claim put the boundary
`elapsed = timeout` on the `on_timeout` side; the source's strict
`elapsed > timeout` comparison puts it on the `on_poll` side.) -/
theorem timed_dispatch_spec {D : Type} (S : TimedState D)
    (ts : TimedStateStruct D) (now : Nat) (d : D) :
    (now - ts.start_time ≤ ts.timeout →
       TimedStateStruct.handle S ts now d =
         ({ ts with state := (S.handle_if_not_timeout ts.state d).1 },
          (S.handle_if_not_timeout ts.state d).2.1,
          (S.handle_if_not_timeout ts.state d).2.2)) ∧
    (ts.timeout < now - ts.start_time →
       TimedStateStruct.handle S ts now d =
         ({ ts with state := (S.handle_once_timeout ts.state d).1 },
          (S.handle_once_timeout ts.state d).2.1,
          (S.handle_once_timeout ts.state d).2.2)) ∧
    (ts.timeout < now - ts.start_time →
       ∀ (ds : List Nat) (d1 : D) (later : Nat) (d2 : D), now ≤ later →
         TimedStateStruct.handle S
             (TimedStateStruct.handleSeq S (TimedStateStruct.handle S ts now d).1 d1 ds).1
             later d2 =
           ({ (TimedStateStruct.handleSeq S (TimedStateStruct.handle S ts now d).1 d1 ds).1 with
                state := (S.handle_once_timeout
                  (TimedStateStruct.handleSeq S
                    (TimedStateStruct.handle S ts now d).1 d1 ds).1.state d2).1 },
            (S.handle_once_timeout
              (TimedStateStruct.handleSeq S
                (TimedStateStruct.handle S ts now d).1 d1 ds).1.state d2).2.1,
            (S.handle_once_timeout
              (TimedStateStruct.handleSeq S
                (TimedStateStruct.handle S ts now d).1 d1 ds).1.state d2).2.2)) := by
  refine ⟨?_, ?_, ?_⟩
  · intro h
    rw [TimedStateStruct.handle, if_neg (by omega)]
  · intro h
    rw [TimedStateStruct.handle, if_pos h]
  · intro h ds d1 later d2 hle
    have hpres := timed_handleSeq_preserves S ds (TimedStateStruct.handle S ts now d).1 d1
    have hp := timed_handle_preserves S ts now d
    have hst := hpres.1.trans hp.1
    have hto := hpres.2.trans hp.2
    rw [TimedStateStruct.handle, if_pos (by rw [hst, hto]; omega)]

/-- Witness for the amended C2: with entry at 0 and timeout 5, a step at time
3 runs the poll handler, a step at time 8 runs the timeout handler, and after
a further step at time 9 the step at time 10 still runs the timeout handler. -/
theorem timed_dispatch_applied :
    TimedStateStruct.handle exTimed exTs 3 0 =
      ({ exTs with state := (exTimed.handle_if_not_timeout exTs.state 0).1 },
       (exTimed.handle_if_not_timeout exTs.state 0).2.1,
       (exTimed.handle_if_not_timeout exTs.state 0).2.2) ∧
    TimedStateStruct.handle exTimed exTs 8 0 =
      ({ exTs with state := (exTimed.handle_once_timeout exTs.state 0).1 },
       (exTimed.handle_once_timeout exTs.state 0).2.1,
       (exTimed.handle_once_timeout exTs.state 0).2.2) ∧
    TimedStateStruct.handle exTimed
        (TimedStateStruct.handleSeq exTimed
          (TimedStateStruct.handle exTimed exTs 8 0).1 0 [9]).1 10 0 =
      ({ (TimedStateStruct.handleSeq exTimed
            (TimedStateStruct.handle exTimed exTs 8 0).1 0 [9]).1 with
           state := (exTimed.handle_once_timeout
             (TimedStateStruct.handleSeq exTimed
               (TimedStateStruct.handle exTimed exTs 8 0).1 0 [9]).1.state 0).1 },
       (exTimed.handle_once_timeout
         (TimedStateStruct.handleSeq exTimed
           (TimedStateStruct.handle exTimed exTs 8 0).1 0 [9]).1.state 0).2.1,
       (exTimed.handle_once_timeout
         (TimedStateStruct.handleSeq exTimed
           (TimedStateStruct.handle exTimed exTs 8 0).1 0 [9]).1.state 0).2.2) :=
  ⟨(timed_dispatch_spec exTimed exTs 3 0).1 (by decide),
   (timed_dispatch_spec exTimed exTs 8 0).2.1 (by decide),
   (timed_dispatch_spec exTimed exTs 8 0).2.2 (by decide) [9] 0 10 0 (by decide)⟩

/-- Claim C10: if a timed state's inner `init` returns no timeout override,
the wrapper keeps its default timeout, which is the zero duration, and the
entry instant just recorded; consequently every step of that entry taken at
strictly positive elapsed time — after any prior step sequence of the entry —
dispatches to `handle_once_timeout`, so `handle_if_not_timeout` never runs at
such steps. -/
theorem timed_default_timeout_spec {D : Type} (S : TimedState D)
    (now0 now1 : Nat) (previous : Val)
    (hnone : (S.init S.dflt previous).2 = none) :
    (TimedStateStruct.init S (TimedStateStruct.dfltAt S now0) now1 previous).timeout = 0 ∧
    (TimedStateStruct.init S (TimedStateStruct.dfltAt S now0) now1 previous).start_time = now1 ∧
    (∀ (ds : List Nat) (d1 : D) (now : Nat) (d : D), now1 < now →
       TimedStateStruct.handle S
           (TimedStateStruct.handleSeq S
             (TimedStateStruct.init S (TimedStateStruct.dfltAt S now0) now1 previous) d1 ds).1
           now d =
         ({ (TimedStateStruct.handleSeq S
              (TimedStateStruct.init S (TimedStateStruct.dfltAt S now0) now1 previous) d1 ds).1 with
              state := (S.handle_once_timeout
                (TimedStateStruct.handleSeq S
                  (TimedStateStruct.init S
                    (TimedStateStruct.dfltAt S now0) now1 previous) d1 ds).1.state d).1 },
          (S.handle_once_timeout
            (TimedStateStruct.handleSeq S
              (TimedStateStruct.init S
                (TimedStateStruct.dfltAt S now0) now1 previous) d1 ds).1.state d).2.1,
          (S.handle_once_timeout
            (TimedStateStruct.handleSeq S
              (TimedStateStruct.init S
                (TimedStateStruct.dfltAt S now0) now1 previous) d1 ds).1.state d).2.2)) := by
  have hts : (TimedStateStruct.init S (TimedStateStruct.dfltAt S now0) now1 previous).timeout = 0 ∧
      (TimedStateStruct.init S (TimedStateStruct.dfltAt S now0) now1 previous).start_time = now1 := by
    simp [TimedStateStruct.init, TimedStateStruct.dfltAt, hnone]
  refine ⟨hts.1, hts.2, ?_⟩
  intro ds d1 now d hpos
  have hpres := timed_handleSeq_preserves S ds
    (TimedStateStruct.init S (TimedStateStruct.dfltAt S now0) now1 previous) d1
  have hst := hpres.1.trans hts.2
  have hto := hpres.2.trans hts.1
  rw [TimedStateStruct.handle, if_pos (by rw [hst, hto]; omega)]

/-- Witness for C10: `exTimedNone` overrides nothing, so the wrapper entered
at instant 3 keeps timeout 0, and after a step at time 4 the step at time 9
(positive elapsed) runs the timeout handler. -/
theorem timed_default_timeout_applied :
    (TimedStateStruct.init exTimedNone (TimedStateStruct.dfltAt exTimedNone 7) 3 .unit).timeout = 0 ∧
    (TimedStateStruct.init exTimedNone (TimedStateStruct.dfltAt exTimedNone 7) 3 .unit).start_time = 3 ∧
    TimedStateStruct.handle exTimedNone
        (TimedStateStruct.handleSeq exTimedNone
          (TimedStateStruct.init exTimedNone
            (TimedStateStruct.dfltAt exTimedNone 7) 3 .unit) 0 [4]).1 9 0 =
      ({ (TimedStateStruct.handleSeq exTimedNone
           (TimedStateStruct.init exTimedNone
             (TimedStateStruct.dfltAt exTimedNone 7) 3 .unit) 0 [4]).1 with
           state := (exTimedNone.handle_once_timeout
             (TimedStateStruct.handleSeq exTimedNone
               (TimedStateStruct.init exTimedNone
                 (TimedStateStruct.dfltAt exTimedNone 7) 3 .unit) 0 [4]).1.state 0).1 },
       (exTimedNone.handle_once_timeout
         (TimedStateStruct.handleSeq exTimedNone
           (TimedStateStruct.init exTimedNone
             (TimedStateStruct.dfltAt exTimedNone 7) 3 .unit) 0 [4]).1.state 0).2.1,
       (exTimedNone.handle_once_timeout
         (TimedStateStruct.handleSeq exTimedNone
           (TimedStateStruct.init exTimedNone
             (TimedStateStruct.dfltAt exTimedNone 7) 3 .unit) 0 [4]).1.state 0).2.2) :=
  have h := timed_default_timeout_spec exTimedNone 7 3 .unit rfl
  ⟨h.1, h.2.1, h.2.2 [4] 0 9 0 (by decide)⟩

end Umrsm
